import Mathlib

/-!
Verification of the lunch-slack-bot rate-limiting and decision engine.

Shallow embedding conventions used throughout this file:

* Calendar dates are modelled as day indices (`Nat`), with day 0 chosen to be
  a Monday.  The source formats dates as `yyyy-MM-dd` strings and compares
  them with DynamoDB string comparison, which on that format is
  order-isomorphic to the numeric order on day indices; `date-fns`
  `startOfWeek`/`endOfWeek` with `weekStartsOn: 1` become `7 * (d / 7)` and
  `7 * (d / 7) + 6`.
* Timestamps (`Date.now()`, milliseconds) are modelled as `Int`.
* The DynamoDB table is modelled as a list of records; `PutItem` replaces
  the item carrying the same composite `id` key (last write wins), `Query`
  by key is an existence check on `id`, and `Scan` with a filter expression
  is `List.filter`.
* Temperatures are the already-rounded integer values (`Math.round` of the
  forecast float happens before every use the claims are about).
-/

namespace LunchBot

/-- `MAX_MESSAGES_PER_WEEK` from `src/utils/constants.ts`. -/
def MAX_MESSAGES_PER_WEEK : Nat := 2

/-- `DYNAMO_TTL_DAYS` from `src/utils/constants.ts`. -/
def DYNAMO_TTL_DAYS : Int := 30

/-- Monday of the calendar week containing day `d`
(`format(startOfWeek(date, { weekStartsOn: 1 }), 'yyyy-MM-dd')`). -/
def weekStartOf (d : Nat) : Nat := 7 * (d / 7)

/-- Sunday of the calendar week containing day `d`
(`format(endOfWeek(now, { weekStartsOn: 1 }), 'yyyy-MM-dd')`). -/
def weekEndOf (d : Nat) : Nat := weekStartOf d + 6

/-- `MessageRecord` from `src/interfaces/storage.interface.ts`: one persisted
fact that a message of a given type was sent for a location on a given day
(or that lunch was confirmed for a week). -/
structure MessageRecord where
  id : String
  date : Nat
  timestamp : Int
  messageType : String
  location : String
  temperature : Option Int := none
  weatherCondition : Option String := none
  ttl : Option Int := none
deriving DecidableEq

/-- The DynamoDB table contents. -/
abbrev Store := List MessageRecord

/-- The composite key `"{location}#{messageType}#{dateOrWeek}"` used by
`DynamoDBStorageService`. -/
def recordId (location messageType : String) (date : Nat) : String :=
  location ++ "#" ++ messageType ++ "#" ++ toString date

/-- DynamoDB `PutItem`: inserts the record, replacing any existing item with
the same key `id`. -/
def putItem (s : Store) (r : MessageRecord) : Store :=
  r :: s.filter (fun q => q.id != r.id)

/-- `DynamoDBStorageService.hasMessageBeenSentToday`: a `Query` on the key
`location#messageType#today`; true iff an item with that id exists. -/
def hasMessageBeenSentToday (s : Store) (messageType location : String) (today : Nat) : Bool :=
  s.any (fun r => r.id == recordId location messageType today)

/-- `WeeklyMessageStats` from `src/interfaces/storage.interface.ts`.
`lastMessageDate` is the empty string in the source when there are no
matching messages; that is modelled as `none`. -/
structure WeeklyMessageStats where
  weekStart : Nat
  messageCount : Nat
  lastMessageDate : Option Nat
  canSendMessage : Bool
deriving DecidableEq

/-- The filter expression of the `Scan` in `getWeeklyMessageStats`:
`#location = :location AND #messageType = :messageType AND
#date >= :weekStart AND #date <= :weekEnd`. -/
def weeklyMatches (s : Store) (location messageType : String) (today : Nat) :
    List MessageRecord :=
  s.filter (fun r =>
    r.location == location && r.messageType == messageType &&
      decide (weekStartOf today ≤ r.date) && decide (r.date ≤ weekEndOf today))

/-- The record selected by `messages.sort((a, b) => b.timestamp - a.timestamp)[0]`:
the earliest-positioned record of maximal timestamp (JS sort is stable). -/
def latestRecord : List MessageRecord → Option MessageRecord
  | [] => none
  | r :: rs =>
    match latestRecord rs with
    | none => some r
    | some q => if q.timestamp > r.timestamp then some q else some r

/-- `DynamoDBStorageService.getWeeklyMessageStats`: scans the table for
records of the given location and type dated within the current
Monday-to-Sunday week and reports the count and `count < MAX_MESSAGES_PER_WEEK`. -/
def getWeeklyMessageStats (s : Store) (location messageType : String) (today : Nat) :
    WeeklyMessageStats :=
  let messages := weeklyMatches s location messageType today
  { weekStart := weekStartOf today
    messageCount := messages.length
    lastMessageDate := (latestRecord messages).map (fun r => r.date)
    canSendMessage := messages.length < MAX_MESSAGES_PER_WEEK }

/-- `DynamoDBStorageService.canSendMessageThisWeek`. -/
def canSendMessageThisWeek (s : Store) (location messageType : String) (today : Nat) : Bool :=
  (getWeeklyMessageStats s location messageType today).canSendMessage

/-- The record written by `DynamoDBStorageService.recordMessageSent`. -/
def mkMessageRecord (messageType location : String) (temperature : Option Int)
    (weatherCondition : Option String) (today : Nat) (nowMs : Int) : MessageRecord :=
  { id := recordId location messageType today
    date := today
    timestamp := nowMs
    messageType := messageType
    location := location
    temperature := temperature
    weatherCondition := weatherCondition
    ttl := some (nowMs / 1000 + DYNAMO_TTL_DAYS * 24 * 60 * 60) }

/-- `DynamoDBStorageService.recordMessageSent`: a `PutItem` keyed by
`location#messageType#today` (overwrites an existing record for the key). -/
def recordMessageSent (s : Store) (messageType location : String) (temperature : Option Int)
    (weatherCondition : Option String) (today : Nat) (nowMs : Int) : Store :=
  putItem s (mkMessageRecord messageType location temperature weatherCondition today nowMs)

/-- Key of a lunch-confirmation record: `location#lunch_confirmation#weekStart`. -/
def lunchConfirmationId (location : String) (weekStart : Nat) : String :=
  recordId location "lunch_confirmation" weekStart

/-- `DynamoDBStorageService.hasLunchBeenConfirmedThisWeek`: existence check for
the key `location#lunch_confirmation#currentWeekStart`. -/
def hasLunchBeenConfirmedThisWeek (s : Store) (location : String) (today : Nat) : Bool :=
  s.any (fun r => r.id == lunchConfirmationId location (weekStartOf today))

/-- `DynamoDBStorageService.cleanupOldRecords`: deletes every record whose
timestamp is older than `now - daysToKeep` days. -/
def cleanupOldRecords (s : Store) (daysToKeep : Int) (nowMs : Int) : Store :=
  let cutoffTimestamp := nowMs - daysToKeep * 24 * 60 * 60 * 1000
  s.filter (fun r => !(decide (r.timestamp < cutoffTimestamp)))

/-- Modelled from the spec: `hasLunchBeenConfirmed(location, weekStart)` is an
"existence check for that key", the key being
`(location, "lunch-confirmation", weekStart)`.  The week-override variant of
the storage service (`hasLunchBeenConfirmedForWeek`) is called by the reply
handler and declared in its dependency interface, but its implementation file
is not among the sources. -/
def hasLunchBeenConfirmedForWeek (s : Store) (location : String) (weekStart : Nat) : Bool :=
  s.any (fun r => r.id == lunchConfirmationId location weekStart)

/-- Modelled from the spec: `recordLunchConfirmation(location, weekStart?)`
"writes a record keyed by `(location, "lunch-confirmation",
weekStart-or-computed-current-week)`".  The week-override variant called by
the reply handler is not among the sources; the current-week variant in
`src/implementations/dynamodb-storage.ts` agrees with this definition at
`weekStart = weekStartOf today`. -/
def recordLunchConfirmation (s : Store) (location : String) (weekStart : Nat)
    (nowMs : Int) : Store :=
  putItem s
    { id := lunchConfirmationId location weekStart
      date := weekStart
      timestamp := nowMs
      messageType := "lunch_confirmation"
      location := location
      ttl := some (nowMs / 1000 + DYNAMO_TTL_DAYS * 24 * 60 * 60) }

/-- Per-location warning opt-in preferences.  Modelled from the spec: the
opt-in flag is "a single current-value record per location (latest write
wins)"; its storage implementation (`setWeatherWarningOptInStatus`,
`isOptedInToWeatherWarnings`) is declared and called but not among the
sources. -/
abbrev OptInPrefs := List (String × Bool)

/-- Modelled from the spec: `setWarningOptIn(location, optedIn)` "upserts the
single current-value preference record for the location". -/
def setWeatherWarningOptInStatus (prefs : OptInPrefs) (location : String)
    (optedIn : Bool) : OptInPrefs :=
  (location, optedIn) :: prefs.filter (fun p => p.1 != location)

/-- Modelled from the spec: `isOptedInToWarnings(location)` "reads the
preference record; absent implies false". -/
def isOptedInToWeatherWarnings (prefs : OptInPrefs) (location : String) : Bool :=
  match prefs.find? (fun p => p.1 == location) with
  | some p => p.2
  | none => false

/-! ## Weather service (`src/services/weather.service.ts`) -/

/-- `WeatherConfig` from `src/services/weather.service.ts`. -/
structure WeatherConfig where
  minTemperature : Int
  goodWeatherConditions : List String
  badWeatherConditions : List String
deriving DecidableEq

/-- The weather verdict produced by `WeatherService.isWeatherGood`
(`WeatherConditionResult`). -/
structure WeatherCondition where
  isGood : Bool
  temperature : Int
  condition : String
  description : String
  timestamp : Int
deriving DecidableEq

/-- `WeatherService.getWeatherCondition`: maps an Open-Meteo weather code to a
`(condition, description)` pair. -/
def getWeatherCondition (weatherCode : Int) : String × String :=
  if weatherCode ≤ 3 then ("clear", "Clear to partly cloudy")
  else if weatherCode ≤ 48 then ("clouds", "Cloudy")
  else if weatherCode ≤ 67 then ("rain", "Rainy")
  else if weatherCode ≤ 77 then ("snow", "Snowy")
  else if weatherCode ≤ 82 then ("rain", "Showers")
  else if weatherCode ≤ 99 then ("thunderstorm", "Thunderstorm")
  else ("clouds", "Unknown weather")

/-- The verdict computed in `WeatherService.isWeatherGood` once a forecast is
available: `temperature` is the rounded forecast temperature
(`Math.round(forecast.temperature_2m)`), `weatherCode` the raw code, and
`ts` the forecast timestamp. -/
def isWeatherGoodFrom (cfg : WeatherConfig) (temperature : Int) (weatherCode : Int)
    (ts : Int) : WeatherCondition :=
  let weatherInfo := getWeatherCondition weatherCode
  let temperatureGood := decide (temperature > cfg.minTemperature)
  let conditionGood :=
    cfg.goodWeatherConditions.contains weatherInfo.1 &&
      !(cfg.badWeatherConditions.contains weatherInfo.1)
  { isGood := temperatureGood && conditionGood
    temperature := temperature
    condition := weatherInfo.1
    description := weatherInfo.2
    timestamp := ts }

/-! ## Scheduled weather-check handler
(`createWeatherCheckHandler` in `src/handlers/weather-check.ts`)

The handler is modelled from the point at which the event has been validated
and configuration and coordinates have been resolved; the external
collaborators are injected through an environment: the table contents, the
warning opt-in preferences, the result of the Weather Evaluator call, and
success flags for the two Notifier deliveries and the prune (each of which the
source awaits inside the `try`, so a rejection lands in the `catch` and
produces the 500 response). -/

/-- Inputs of one weather-check invocation. -/
structure WeatherEnv where
  records : Store
  optIns : OptInPrefs
  location : String
  today : Nat
  nowMs : Int
  /-- Result of `weatherService.isWeatherGood(coordinates)`; `Except.error`
  is a rejected promise (network or parsing failure). -/
  weather : Except String WeatherCondition
  /-- Whether `slackService.sendWeatherReminder` resolves if called. -/
  reminderSendOk : Bool
  /-- Whether `slackService.sendWeatherWarning` resolves if called. -/
  warningSendOk : Bool
  /-- Whether `storageService.cleanupOldRecords(30)` resolves if called. -/
  cleanupOk : Bool

/-- Observable outcome of one weather-check invocation: response fields plus
the calls made to the collaborators and the final table contents. -/
structure WeatherCheckResult where
  statusCode : Nat
  message : String
  lunchConfirmed : Option Bool := none
  messageSent : Bool := false
  messageType : String := ""
  weeklyStats : Option WeeklyMessageStats := none
  /-- Whether `weatherService.isWeatherGood` was invoked. -/
  weatherCalled : Bool := false
  /-- Number of `sendWeatherReminder` calls (0 or 1). -/
  reminderCalls : Nat := 0
  /-- Number of `sendWeatherWarning` calls (0 or 1). -/
  warningCalls : Nat := 0
  /-- Whether `cleanupOldRecords(30)` was invoked. -/
  cleanupCalled : Bool := false
  /-- Message types passed to `recordMessageSent` during the invocation. -/
  recorded : List String := []
  records : Store
deriving DecidableEq

/-- The tail of the handler shared by all branches that reach the weather
evaluation: `await storageService.cleanupOldRecords(30)` followed by the
success response (a prune rejection lands in the `catch` and yields 500). -/
def finishWeatherCheck (env : WeatherEnv) (s : Store) (stats : WeeklyMessageStats)
    (sent : Bool) (mtype : String) (recorded : List String)
    (rCalls wCalls : Nat) : WeatherCheckResult :=
  if env.cleanupOk then
    { statusCode := 200
      message := "Weather check completed successfully"
      lunchConfirmed := some false
      messageSent := sent
      messageType := mtype
      weeklyStats := some stats
      weatherCalled := true
      reminderCalls := rCalls
      warningCalls := wCalls
      cleanupCalled := true
      recorded := recorded
      records := cleanupOldRecords s 30 env.nowMs }
  else
    { statusCode := 500
      message := "Internal server error"
      messageSent := sent
      messageType := mtype
      weatherCalled := true
      reminderCalls := rCalls
      warningCalls := wCalls
      cleanupCalled := true
      recorded := recorded
      records := s }

/-- `createWeatherCheckHandler`: the decision engine of one scheduled
invocation, mirroring the branch structure of the source. -/
def weatherCheckHandler (env : WeatherEnv) : WeatherCheckResult :=
  if hasLunchBeenConfirmedThisWeek env.records env.location env.today then
    { statusCode := 200
      message := "Lunch already confirmed this week, no weather messages needed"
      lunchConfirmed := some true
      records := env.records }
  else if hasMessageBeenSentToday env.records "weather_reminder" env.location env.today then
    { statusCode := 200
      message := "Message already sent today"
      records := env.records }
  else
    let weeklyStats := getWeeklyMessageStats env.records env.location "weather_reminder" env.today
    if !(canSendMessageThisWeek env.records env.location "weather_reminder" env.today) then
      { statusCode := 200
        message := "Weekly message limit reached"
        weeklyStats := some weeklyStats
        records := env.records }
    else
      match env.weather with
      | Except.error e =>
        { statusCode := 500
          message := e
          weatherCalled := true
          records := env.records }
      | Except.ok w =>
        if w.isGood then
          if env.reminderSendOk then
            finishWeatherCheck env
              (recordMessageSent env.records "weather_reminder" env.location
                (some w.temperature) (some w.condition) env.today env.nowMs)
              weeklyStats true "weather_reminder" ["weather_reminder"] 1 0
          else
            { statusCode := 500
              message := "Internal server error"
              weatherCalled := true
              reminderCalls := 1
              records := env.records }
        else
          if !(isOptedInToWeatherWarnings env.optIns env.location) then
            finishWeatherCheck env env.records weeklyStats false "" [] 0 0
          else
            if canSendMessageThisWeek env.records env.location "weather_warning" env.today &&
                !(hasMessageBeenSentToday env.records "weather_warning" env.location env.today) then
              if env.warningSendOk then
                finishWeatherCheck env
                  (recordMessageSent env.records "weather_warning" env.location
                    (some w.temperature) (some w.condition) env.today env.nowMs)
                  weeklyStats true "weather_warning" ["weather_warning"] 0 1
              else
                { statusCode := 500
                  message := "Internal server error"
                  weatherCalled := true
                  warningCalls := 1
                  records := env.records }
            else
              finishWeatherCheck env env.records weeklyStats false "" [] 0 0

/-! ## Reply / preference handler (`createReplyHandler` in the reply handler
source)

The request is modelled after JSON parsing of well-typed payloads: the body,
when present and parseable, yields the optional string fields the
`replyRequestSchema` reads (`action`, `location`, `date`); a body that is not
valid JSON is `ReplyBody.invalid`.  Request `date` values are week-start
dates and use the day-index date model. -/

/-- The fields of a parsed request payload that `replyRequestSchema` reads. -/
structure RequestData where
  action : Option String := none
  location : Option String := none
  date : Option Nat := none
deriving DecidableEq

/-- The POST body of a reply request. -/
inductive ReplyBody where
  /-- Absent or empty body (falsy in `event.httpMethod === 'POST' && event.body`). -/
  | empty : ReplyBody
  /-- Present body on which `JSON.parse` throws. -/
  | invalid : ReplyBody
  /-- Present body parsing to an object with these fields. -/
  | parsed (data : RequestData) : ReplyBody
deriving DecidableEq

/-- An API-gateway reply event: method, body, query parameters and the two
user-agent header spellings the source reads. -/
structure ReplyEvent where
  httpMethod : String
  body : ReplyBody := ReplyBody.empty
  queryStringParameters : Option RequestData := none
  userAgentCap : Option String := none
  userAgentLower : Option String := none
deriving DecidableEq

/-- JS `a || b` on strings (empty string is falsy). -/
def orElseStr (a b : String) : String := if a == "" then b else a

/-- `event.headers?.['User-Agent'] || event.headers?.['user-agent'] || ''`. -/
def effectiveUserAgent (e : ReplyEvent) : String :=
  orElseStr (e.userAgentCap.getD "") (e.userAgentLower.getD "")

/-- Whether `pat` starts the list `l`. -/
def listStartsWith : List Char → List Char → Bool
  | [], _ => true
  | _ :: _, [] => false
  | p :: ps, c :: cs => p == c && listStartsWith ps cs

/-- Whether `pat` occurs contiguously in `l`. -/
def listHasInfix (pat : List Char) : List Char → Bool
  | [] => listStartsWith pat []
  | c :: cs => listStartsWith pat (c :: cs) || listHasInfix pat cs

/-- JS `String.prototype.includes`. -/
def strIncludes (s pat : String) : Bool :=
  listHasInfix pat.toList s.toList

/-- The actions accepted by `replyRequestSchema`. -/
def allowedActions : List String := ["confirm-lunch", "opt-in-warnings", "opt-out-warnings"]

/-- Result of `replyRequestSchema.safeParse`: fails iff an `action` field is
present and not one of the allowed actions; an absent `action` defaults to
`confirm-lunch`. -/
inductive ParseOutcome where
  | failure : ParseOutcome
  | success (action : String) (location : Option String) (date : Option Nat) : ParseOutcome
deriving DecidableEq

/-- `replyRequestSchema.safeParse(requestData)`. -/
def replyRequestSafeParse (d : RequestData) : ParseOutcome :=
  match d.action with
  | none => ParseOutcome.success "confirm-lunch" d.location d.date
  | some a =>
    if allowedActions.contains a then ParseOutcome.success a d.location d.date
    else ParseOutcome.failure

/-- How `requestData` is assembled from the event (POST body, GET query, or
`{}`). -/
inductive RequestDataOutcome where
  | invalidJson : RequestDataOutcome
  | ok (d : RequestData) : RequestDataOutcome
deriving DecidableEq

/-- The `requestData` assembly in the reply handler. -/
def requestDataOf (event : ReplyEvent) : RequestDataOutcome :=
  if event.httpMethod == "POST" then
    match event.body with
    | ReplyBody.empty => RequestDataOutcome.ok {}
    | ReplyBody.invalid => RequestDataOutcome.invalidJson
    | ReplyBody.parsed d => RequestDataOutcome.ok d
  else
    match event.queryStringParameters with
    | some d => RequestDataOutcome.ok d
    | none => RequestDataOutcome.ok {}

/-- State the reply handler runs against. -/
structure ReplyEnv where
  records : Store
  optIns : OptInPrefs
  /-- `coordinates.locationName`, the configured primary location. -/
  defaultLocation : String
  today : Nat
  nowMs : Int

/-- Observable outcome of one reply invocation: response fields, the number of
Ledger reads and writes performed, and the final state. -/
structure ReplyResult where
  statusCode : Nat
  message : String
  location : Option String := none
  weekStart : Option Nat := none
  alreadyConfirmed : Option Bool := none
  confirmed : Option Bool := none
  optedIn : Option Bool := none
  storageReads : Nat := 0
  storageWrites : Nat := 0
  records : Store
  optIns : OptInPrefs
deriving DecidableEq

/-- `createReplyHandler`: user-agent bot gate, CORS preflight, method check,
JSON parse, schema validation, then the three actions, mirroring the source
order. -/
def replyHandler (env : ReplyEnv) (event : ReplyEvent) : ReplyResult :=
  if strIncludes (effectiveUserAgent event) "Slackbot-LinkExpanding" then
    { statusCode := 200
      message := "Bot request blocked"
      records := env.records
      optIns := env.optIns }
  else if event.httpMethod == "OPTIONS" then
    { statusCode := 200
      message := "CORS preflight successful"
      records := env.records
      optIns := env.optIns }
  else if !(["POST", "GET"].contains event.httpMethod) then
    { statusCode := 405
      message := "Method not allowed"
      records := env.records
      optIns := env.optIns }
  else
    match requestDataOf event with
    | RequestDataOutcome.invalidJson =>
      { statusCode := 400
        message := "Invalid JSON in request body"
        records := env.records
        optIns := env.optIns }
    | RequestDataOutcome.ok d =>
      match replyRequestSafeParse d with
      | ParseOutcome.failure =>
        { statusCode := 400
          message := "Invalid request parameters"
          records := env.records
          optIns := env.optIns }
      | ParseOutcome.success action customLocation date =>
        let locationName := orElseStr (customLocation.getD "") env.defaultLocation
        if action == "confirm-lunch" then
          let weekStart :=
            match date with
            | some dt => dt
            | none => weekStartOf env.today
          if hasLunchBeenConfirmedForWeek env.records locationName weekStart then
            { statusCode := 200
              message := "Lunch already confirmed for this week! No more weather reminders will be sent."
              location := some locationName
              weekStart := some weekStart
              alreadyConfirmed := some true
              storageReads := 1
              records := env.records
              optIns := env.optIns }
          else
            { statusCode := 200
              message := "Thanks for confirming! Lunch confirmed for this week. No more weather reminders will be sent."
              location := some locationName
              weekStart := some weekStart
              confirmed := some true
              storageReads := 1
              storageWrites := 1
              records := recordLunchConfirmation env.records locationName weekStart env.nowMs
              optIns := env.optIns }
        else if action == "opt-in-warnings" then
          { statusCode := 200
            message := "Successfully opted in to weather warnings. You will now receive notifications when the weather is not suitable for outdoor lunch."
            location := some locationName
            optedIn := some true
            storageWrites := 1
            records := env.records
            optIns := setWeatherWarningOptInStatus env.optIns locationName true }
        else if action == "opt-out-warnings" then
          { statusCode := 200
            message := "Successfully opted out of weather warnings. You will no longer receive notifications about bad weather."
            location := some locationName
            optedIn := some false
            storageWrites := 1
            records := env.records
            optIns := setWeatherWarningOptInStatus env.optIns locationName false }
        else
          { statusCode := 400
            message := "Unknown action"
            records := env.records
            optIns := env.optIns }

/-! ## Helper lemmas -/

/-- Membership in the `[weekStart, weekEnd]` scan window is the same as lying
in the calendar week (Monday-to-Sunday block) of `t`. -/
theorem week_window_eq (t d : Nat) :
    (decide (weekStartOf t ≤ d) && decide (d ≤ weekEndOf t)) = (d / 7 == t / 7) := by
  rw [Bool.eq_iff_iff]
  simp only [Bool.and_eq_true, decide_eq_true_eq, beq_iff_eq, weekStartOf, weekEndOf]
  omega

/-- A `putItem` makes the stored record visible to a key query. -/
theorem any_id_putItem (s : Store) (r : MessageRecord) :
    (putItem s r).any (fun q => q.id == r.id) = true := by
  simp [putItem]

/-- The three cheap Ledger checks at the top of the weather-check handler all
pass, so the invocation reaches the weather evaluation. -/
def reachesWeather (env : WeatherEnv) : Prop :=
  hasLunchBeenConfirmedThisWeek env.records env.location env.today = false ∧
  hasMessageBeenSentToday env.records "weather_reminder" env.location env.today = false ∧
  canSendMessageThisWeek env.records env.location "weather_reminder" env.today = true

/-! ## Claim theorems -/

/-- C1: whenever the Ledger reports that lunch has been confirmed for the
current week of the handler location, the weather-check handler returns a 200
response stating lunch is confirmed, the Weather Evaluator is never invoked,
no Notifier call is made, nothing is recorded, and the table is unchanged. -/
theorem lunchConfirmed_short_circuits_weather (env : WeatherEnv)
    (h : hasLunchBeenConfirmedThisWeek env.records env.location env.today = true) :
    (weatherCheckHandler env).statusCode = 200 ∧
    (weatherCheckHandler env).message =
      "Lunch already confirmed this week, no weather messages needed" ∧
    (weatherCheckHandler env).lunchConfirmed = some true ∧
    (weatherCheckHandler env).weatherCalled = false ∧
    (weatherCheckHandler env).reminderCalls = 0 ∧
    (weatherCheckHandler env).warningCalls = 0 ∧
    (weatherCheckHandler env).recorded = [] ∧
    (weatherCheckHandler env).messageSent = false ∧
    (weatherCheckHandler env).records = env.records := by
  unfold weatherCheckHandler
  simp [h]

/-- C1 witness: a concrete invocation with a stored lunch confirmation for the
current week. -/
def envC1w : WeatherEnv :=
  { records := [{ id := lunchConfirmationId "Munich" 7, date := 7, timestamp := 0,
                  messageType := "lunch_confirmation", location := "Munich" }]
    optIns := []
    location := "Munich"
    today := 10
    nowMs := 0
    weather := Except.ok (isWeatherGoodFrom ⟨14, ["clear", "clouds"], ["rain"]⟩ 22 0 0)
    reminderSendOk := true
    warningSendOk := true
    cleanupOk := true }

/-- C1 witness. -/
theorem lunchConfirmed_short_circuit_witness :
    (weatherCheckHandler envC1w).statusCode = 200 ∧
    (weatherCheckHandler envC1w).weatherCalled = false ∧
    (weatherCheckHandler envC1w).records = envC1w.records := by
  have h := lunchConfirmed_short_circuits_weather envC1w (by decide)
  exact ⟨h.1, h.2.2.2.1, h.2.2.2.2.2.2.2.2⟩

/-- C2: the verdict computed from a forecast with rounded temperature `t` and
weather code `code` has `isGood = true` iff `t` strictly exceeds the
configured minimum, the mapped condition is in the good set, and it is not in
the bad set; in particular, with good = clear/clouds and bad = clear/rain, a
clear condition above the minimum yields `isGood = false` (bad set wins). -/
theorem isWeatherGood_verdict_iff (cfg : WeatherConfig) (t code ts : Int) :
    ((isWeatherGoodFrom cfg t code ts).isGood = true ↔
      (cfg.minTemperature < t ∧
        (getWeatherCondition code).1 ∈ cfg.goodWeatherConditions ∧
        (getWeatherCondition code).1 ∉ cfg.badWeatherConditions)) ∧
    (cfg.goodWeatherConditions = ["clear", "clouds"] →
      cfg.badWeatherConditions = ["clear", "rain"] →
      (getWeatherCondition code).1 = "clear" →
      cfg.minTemperature < t →
      (isWeatherGoodFrom cfg t code ts).isGood = false) := by
  constructor
  · simp [isWeatherGoodFrom, and_assoc]
  · intro h1 h2 h3 h4
    simp [isWeatherGoodFrom, h1, h2, h3]

/-- C2 witness: overlapping good and bad sets at a concrete verdict. -/
theorem isWeatherGood_verdict_witness :
    (isWeatherGoodFrom ⟨10, ["clear", "clouds"], ["clear", "rain"]⟩ 20 0 0).isGood = false :=
  (isWeatherGood_verdict_iff ⟨10, ["clear", "clouds"], ["clear", "rain"]⟩ 20 0 0).2
    rfl rfl rfl (by decide)

/-- C3: the weekly statistics count exactly the stored records of the given
location and type dated in the Monday-to-Sunday calendar week of today;
`canSendMessage` is the strict comparison `count < 2`; zero sends allow more,
exactly two block, and a record dated in another week does not change the
count. -/
theorem weeklyStats_window_and_cap (s : Store) (L T : String) (today : Nat) :
    ((getWeeklyMessageStats s L T today).messageCount =
      (s.filter (fun r => r.location == L && r.messageType == T &&
        (r.date / 7 == today / 7))).length) ∧
    ((getWeeklyMessageStats s L T today).canSendMessage = true ↔
      (getWeeklyMessageStats s L T today).messageCount < 2) ∧
    ((getWeeklyMessageStats s L T today).messageCount = 0 →
      (getWeeklyMessageStats s L T today).canSendMessage = true) ∧
    ((getWeeklyMessageStats s L T today).messageCount = 2 →
      (getWeeklyMessageStats s L T today).canSendMessage = false) ∧
    (∀ r : MessageRecord, r.date / 7 ≠ today / 7 →
      (getWeeklyMessageStats (r :: s) L T today).messageCount =
        (getWeeklyMessageStats s L T today).messageCount) := by
  have hfilter : weeklyMatches s L T today =
      s.filter (fun r => r.location == L && r.messageType == T &&
        (r.date / 7 == today / 7)) := by
    unfold weeklyMatches
    apply List.filter_congr
    intro r _
    rw [Bool.and_assoc, week_window_eq]
  refine ⟨?_, ?_, ?_, ?_, ?_⟩
  · simp [getWeeklyMessageStats, hfilter]
  · simp [getWeeklyMessageStats, MAX_MESSAGES_PER_WEEK]
  · intro h
    simp only [getWeeklyMessageStats, MAX_MESSAGES_PER_WEEK] at h ⊢
    simp only [decide_eq_true_eq]
    omega
  · intro h
    simp only [getWeeklyMessageStats, MAX_MESSAGES_PER_WEEK] at h ⊢
    simp only [decide_eq_false_iff_not]
    omega
  · intro r h
    unfold getWeeklyMessageStats weeklyMatches
    simp only [List.filter_cons]
    rw [Bool.and_assoc, week_window_eq]
    have hb : (r.date / 7 == today / 7) = false := by simp [h]
    rw [hb, Bool.and_false]
    simp

/-- C3 witness data: two reminder records in the week of day 10 and one in a
prior week. -/
def recW1 : MessageRecord :=
  { id := recordId "Munich" "weather_reminder" 9, date := 9, timestamp := 1,
    messageType := "weather_reminder", location := "Munich" }

/-- C3 witness data. -/
def recW2 : MessageRecord :=
  { id := recordId "Munich" "weather_reminder" 10, date := 10, timestamp := 2,
    messageType := "weather_reminder", location := "Munich" }

/-- C3 witness data: a matching record dated in a prior week. -/
def recWOld : MessageRecord :=
  { id := recordId "Munich" "weather_reminder" 3, date := 3, timestamp := 0,
    messageType := "weather_reminder", location := "Munich" }

/-- C3 witness. -/
theorem weeklyStats_window_and_cap_witness :
    (getWeeklyMessageStats [] "Munich" "weather_reminder" 10).canSendMessage = true ∧
    (getWeeklyMessageStats [recW1, recW2] "Munich" "weather_reminder" 10).canSendMessage = false ∧
    (getWeeklyMessageStats (recWOld :: [recW1, recW2]) "Munich" "weather_reminder" 10).messageCount =
      (getWeeklyMessageStats [recW1, recW2] "Munich" "weather_reminder" 10).messageCount := by
  refine ⟨(weeklyStats_window_and_cap [] "Munich" "weather_reminder" 10).2.2.1 (by decide),
    (weeklyStats_window_and_cap [recW1, recW2] "Munich" "weather_reminder" 10).2.2.2.1 (by decide),
    (weeklyStats_window_and_cap [recW1, recW2] "Munich" "weather_reminder" 10).2.2.2.2
      recWOld (by decide)⟩

/-- C7: writing a message record twice for the same type, location and
calendar date leaves exactly one record at that key, equal to the second
write (last write wins), and the daily guard reports true already after the
first write. -/
theorem recordMessageSent_last_write_wins (s : Store) (T L : String)
    (temp1 temp2 : Option Int) (cond1 cond2 : Option String) (today : Nat) (ts1 ts2 : Int) :
    ((recordMessageSent (recordMessageSent s T L temp1 cond1 today ts1)
        T L temp2 cond2 today ts2).filter
        (fun r => r.id == recordId L T today) =
      [mkMessageRecord T L temp2 cond2 today ts2]) ∧
    hasMessageBeenSentToday (recordMessageSent s T L temp1 cond1 today ts1) T L today = true := by
  constructor
  · unfold recordMessageSent putItem
    have hid2 : (mkMessageRecord T L temp2 cond2 today ts2).id = recordId L T today := rfl
    rw [List.filter_cons]
    simp only [hid2, beq_self_eq_true, if_true]
    have hrest : ∀ l : Store, (l.filter (fun q => q.id != recordId L T today)).filter
        (fun r => r.id == recordId L T today) = [] := by
      intro l
      induction l with
      | nil => rfl
      | cons a l ih =>
        rw [List.filter_cons]
        by_cases h : a.id = recordId L T today
        · simp [h, ih]
        · simp [h, ih]
    rw [hrest]
  · unfold recordMessageSent putItem hasMessageBeenSentToday
    simp [mkMessageRecord]

/-- C5: a reminder or warning record is written only when the corresponding
Notifier call succeeded; a Notifier failure on either send branch aborts with
a 500 response, leaving the table unchanged and nothing recorded. -/
theorem record_only_after_notifier_success (env : WeatherEnv) (w : WeatherCondition) :
    (("weather_reminder" ∈ (weatherCheckHandler env).recorded →
        env.reminderSendOk = true) ∧
      ("weather_warning" ∈ (weatherCheckHandler env).recorded →
        env.warningSendOk = true)) ∧
    (reachesWeather env → env.weather = Except.ok w → w.isGood = true →
      env.reminderSendOk = false →
      (weatherCheckHandler env).statusCode = 500 ∧
      (weatherCheckHandler env).reminderCalls = 1 ∧
      (weatherCheckHandler env).recorded = [] ∧
      (weatherCheckHandler env).records = env.records) ∧
    (reachesWeather env → env.weather = Except.ok w → w.isGood = false →
      isOptedInToWeatherWarnings env.optIns env.location = true →
      canSendMessageThisWeek env.records env.location "weather_warning" env.today = true →
      hasMessageBeenSentToday env.records "weather_warning" env.location env.today = false →
      env.warningSendOk = false →
      (weatherCheckHandler env).statusCode = 500 ∧
      (weatherCheckHandler env).warningCalls = 1 ∧
      (weatherCheckHandler env).recorded = [] ∧
      (weatherCheckHandler env).records = env.records) := by
  refine ⟨⟨?_, ?_⟩, ?_, ?_⟩
  · unfold weatherCheckHandler finishWeatherCheck
    repeat' split
    all_goals simp_all
  · unfold weatherCheckHandler finishWeatherCheck
    repeat' split
    all_goals simp_all
  · rintro ⟨h1, h2, h3⟩ hw hg hr
    unfold weatherCheckHandler
    simp [h1, h2, h3, hw, hg, hr]
  · rintro ⟨h1, h2, h3⟩ hw hg ho hc hs hr
    unfold weatherCheckHandler
    simp [h1, h2, h3, hw, hg, ho, hc, hs, hr]

/-- C5 witness: a concrete invocation whose reminder delivery fails. -/
def envC5w : WeatherEnv :=
  { records := []
    optIns := []
    location := "Munich"
    today := 10
    nowMs := 0
    weather := Except.ok (isWeatherGoodFrom ⟨14, ["clear", "clouds"], ["rain"]⟩ 22 0 0)
    reminderSendOk := false
    warningSendOk := true
    cleanupOk := true }

/-- C5 witness. -/
theorem record_only_after_notifier_witness :
    (weatherCheckHandler envC5w).statusCode = 500 ∧
    (weatherCheckHandler envC5w).records = envC5w.records := by
  have h := record_only_after_notifier_success envC5w
    (isWeatherGoodFrom ⟨14, ["clear", "clouds"], ["rain"]⟩ 22 0 0)
  have hrw : reachesWeather envC5w := by
    unfold reachesWeather
    refine ⟨by decide, by decide, by decide⟩
  exact ⟨(h.2.1 hrw rfl (by decide) rfl).1, (h.2.1 hrw rfl (by decide) rfl).2.2.2⟩

/-- C4 counterexample data: an invocation that exits on the lunch-confirmed
branch. -/
def envC4lunch : WeatherEnv :=
  { records := [{ id := lunchConfirmationId "Munich" 7, date := 7, timestamp := 0,
                  messageType := "lunch_confirmation", location := "Munich" }]
    optIns := []
    location := "Munich"
    today := 10
    nowMs := 0
    weather := Except.ok (isWeatherGoodFrom ⟨14, ["clear", "clouds"], ["rain"]⟩ 22 0 0)
    reminderSendOk := true
    warningSendOk := true
    cleanupOk := true }

/-- C4 counterexample data: the same invocation with an empty table, reaching
the good-weather send branch. -/
def envC4good : WeatherEnv := { envC4lunch with records := [] }

/-- C4 counterexample: the lunch-confirmed early exit returns 200 without
executing the retention prune, and an invocation that differs only in the
prune outcome returns 200 when the prune succeeds but 500 when it fails, so
the prune is neither run on every non-500 branch nor free of influence on the
response. -/
theorem cleanup_every_branch_cex :
    ((weatherCheckHandler envC4lunch).statusCode = 200 ∧
      (weatherCheckHandler envC4lunch).cleanupCalled = false) ∧
    ((weatherCheckHandler envC4good).statusCode = 200 ∧
      (weatherCheckHandler { envC4good with cleanupOk := false }).statusCode = 500) := by
  refine ⟨⟨?_, ?_⟩, ?_, ?_⟩ <;> decide

/-- C4 (amended): the retention prune runs before the response exactly on
invocations that pass the lunch-confirmed, already-sent-today and
weekly-limit checks, obtain a weather verdict, and complete their send branch
without a Notifier failure; the three early exits and the failure branches
return without pruning, and when the prune runs, its own failure turns the
response into a 500 (it gates the result). -/
theorem cleanup_gated_on_weather_path (env : WeatherEnv) (w : WeatherCondition) :
    (hasLunchBeenConfirmedThisWeek env.records env.location env.today = true →
      (weatherCheckHandler env).cleanupCalled = false) ∧
    (hasMessageBeenSentToday env.records "weather_reminder" env.location env.today = true →
      (weatherCheckHandler env).cleanupCalled = false) ∧
    (canSendMessageThisWeek env.records env.location "weather_reminder" env.today = false →
      (weatherCheckHandler env).cleanupCalled = false) ∧
    (∀ e, env.weather = Except.error e →
      (weatherCheckHandler env).cleanupCalled = false) ∧
    (reachesWeather env → env.weather = Except.ok w →
      (w.isGood = true → env.reminderSendOk = true →
        (weatherCheckHandler env).cleanupCalled = true) ∧
      (w.isGood = false → isOptedInToWeatherWarnings env.optIns env.location = false →
        (weatherCheckHandler env).cleanupCalled = true) ∧
      (w.isGood = false → isOptedInToWeatherWarnings env.optIns env.location = true →
        (canSendMessageThisWeek env.records env.location "weather_warning" env.today = false ∨
          hasMessageBeenSentToday env.records "weather_warning" env.location env.today = true) →
        (weatherCheckHandler env).cleanupCalled = true) ∧
      (w.isGood = false → isOptedInToWeatherWarnings env.optIns env.location = true →
        canSendMessageThisWeek env.records env.location "weather_warning" env.today = true →
        hasMessageBeenSentToday env.records "weather_warning" env.location env.today = false →
        env.warningSendOk = true →
        (weatherCheckHandler env).cleanupCalled = true)) ∧
    ((weatherCheckHandler env).cleanupCalled = true →
      (weatherCheckHandler env).statusCode = (if env.cleanupOk then 200 else 500)) := by
  refine ⟨?_, ?_, ?_, ?_, ?_, ?_⟩
  · intro h
    unfold weatherCheckHandler
    simp [h]
  · intro h
    unfold weatherCheckHandler
    by_cases h1 : hasLunchBeenConfirmedThisWeek env.records env.location env.today <;>
      simp [h1, h]
  · intro h
    unfold weatherCheckHandler
    by_cases h1 : hasLunchBeenConfirmedThisWeek env.records env.location env.today <;>
      by_cases h2 : hasMessageBeenSentToday env.records "weather_reminder" env.location env.today <;>
      simp [h1, h2, h]
  · intro e h
    unfold weatherCheckHandler
    by_cases h1 : hasLunchBeenConfirmedThisWeek env.records env.location env.today <;>
      by_cases h2 : hasMessageBeenSentToday env.records "weather_reminder" env.location env.today <;>
      by_cases h3 : canSendMessageThisWeek env.records env.location "weather_reminder" env.today <;>
      simp [h1, h2, h3, h]
  · rintro ⟨h1, h2, h3⟩ hw
    refine ⟨?_, ?_, ?_, ?_⟩
    · intro hg hok
      unfold weatherCheckHandler finishWeatherCheck
      by_cases hc : env.cleanupOk <;> simp [h1, h2, h3, hw, hg, hok, hc]
    · intro hg ho
      unfold weatherCheckHandler finishWeatherCheck
      by_cases hc : env.cleanupOk <;> simp [h1, h2, h3, hw, hg, ho, hc]
    · intro hg ho hb
      unfold weatherCheckHandler finishWeatherCheck
      rcases hb with hb | hb <;> by_cases hc : env.cleanupOk <;>
        simp [h1, h2, h3, hw, hg, ho, hb, hc]
    · intro hg ho hcw hsw hok
      unfold weatherCheckHandler finishWeatherCheck
      by_cases hc : env.cleanupOk <;> simp [h1, h2, h3, hw, hg, ho, hcw, hsw, hok, hc]
  · intro h
    revert h
    unfold weatherCheckHandler finishWeatherCheck
    repeat' split
    all_goals simp_all

/-- C4 witness. -/
theorem cleanup_gated_on_weather_path_witness :
    (weatherCheckHandler envC4good).cleanupCalled = true ∧
    (weatherCheckHandler envC4good).statusCode = 200 := by
  have h := cleanup_gated_on_weather_path envC4good
    (isWeatherGoodFrom ⟨14, ["clear", "clouds"], ["rain"]⟩ 22 0 0)
  have hrw : reachesWeather envC4good := by
    unfold reachesWeather
    refine ⟨by decide, by decide, by decide⟩
  have hcc := (h.2.2.2.2.1 hrw rfl).1 (by decide) rfl
  exact ⟨hcc, h.2.2.2.2.2 hcc⟩

/-- C6 counterexample data: an invocation with a bad-weather verdict, a
location not opted in to warnings, and a failing retention prune. -/
def envC6 : WeatherEnv :=
  { records := []
    optIns := []
    location := "Munich"
    today := 10
    nowMs := 0
    weather := Except.ok (isWeatherGoodFrom ⟨14, ["clear", "clouds"], ["rain"]⟩ 5 60 0)
    reminderSendOk := true
    warningSendOk := true
    cleanupOk := false }

/-- C6 counterexample: with a bad-weather verdict and the location not opted
in, the warning path is indeed never taken and nothing is recorded, but the
invocation does not complete with a 200 response: the subsequent retention
prune fails and the handler returns 500. -/
theorem optout_response_200_cex :
    (∃ w, envC6.weather = Except.ok w ∧ w.isGood = false) ∧
    isOptedInToWeatherWarnings envC6.optIns envC6.location = false ∧
    (weatherCheckHandler envC6).warningCalls = 0 ∧
    (weatherCheckHandler envC6).recorded = [] ∧
    (weatherCheckHandler envC6).statusCode = 500 := by
  refine ⟨⟨isWeatherGoodFrom ⟨14, ["clear", "clouds"], ["rain"]⟩ 5 60 0, rfl, by decide⟩,
    ?_, ?_, ?_, ?_⟩ <;> decide

/-- C6 (amended): with a bad-weather verdict and the location not opted in to
warnings, the Notifier warning path is never called, no record of any type is
written, and the handler returns 200 when the retention prune succeeds and
500 when it fails (still with no warning sent or recorded). -/
theorem optout_suppresses_warnings (env : WeatherEnv) (w : WeatherCondition)
    (hr : reachesWeather env) (hw : env.weather = Except.ok w) (hg : w.isGood = false)
    (ho : isOptedInToWeatherWarnings env.optIns env.location = false) :
    (weatherCheckHandler env).warningCalls = 0 ∧
    (weatherCheckHandler env).reminderCalls = 0 ∧
    (weatherCheckHandler env).recorded = [] ∧
    (weatherCheckHandler env).messageSent = false ∧
    (weatherCheckHandler env).statusCode = (if env.cleanupOk then 200 else 500) ∧
    (weatherCheckHandler env).records =
      (if env.cleanupOk then cleanupOldRecords env.records 30 env.nowMs else env.records) := by
  obtain ⟨h1, h2, h3⟩ := hr
  unfold weatherCheckHandler finishWeatherCheck
  by_cases hc : env.cleanupOk <;> simp [h1, h2, h3, hw, hg, ho, hc]

/-- C6 witness data: the counterexample invocation with a succeeding prune. -/
def envC6w : WeatherEnv := { envC6 with cleanupOk := true }

/-- C6 witness. -/
theorem optout_suppresses_warnings_witness :
    (weatherCheckHandler envC6w).warningCalls = 0 ∧
    (weatherCheckHandler envC6w).recorded = [] ∧
    (weatherCheckHandler envC6w).statusCode = 200 := by
  have h := optout_suppresses_warnings envC6w
    (isWeatherGoodFrom ⟨14, ["clear", "clouds"], ["rain"]⟩ 5 60 0)
    (by unfold reachesWeather; refine ⟨by decide, by decide, by decide⟩)
    rfl (by decide) (by decide)
  exact ⟨h.1, h.2.2.1, h.2.2.2.2.1⟩

/-- C8: a request the handler resolves to the confirm-lunch action (non-bot
user agent, POST or GET, parseable payload whose action resolves to
confirm-lunch): if the Ledger already holds a confirmation for the target
location and week the response is 200 with alreadyConfirmed and no write;
otherwise exactly one confirmation write happens for that location and week
and the response is 200 with confirmed. -/
theorem confirmLunch_read_then_write_once (env : ReplyEnv) (event : ReplyEvent)
    (d : RequestData) (loc : Option String) (dateOpt : Option Nat)
    (hua : strIncludes (effectiveUserAgent event) "Slackbot-LinkExpanding" = false)
    (hm : event.httpMethod = "POST" ∨ event.httpMethod = "GET")
    (hd : requestDataOf event = RequestDataOutcome.ok d)
    (hp : replyRequestSafeParse d = ParseOutcome.success "confirm-lunch" loc dateOpt) :
    (hasLunchBeenConfirmedForWeek env.records
        (orElseStr (loc.getD "") env.defaultLocation)
        (dateOpt.getD (weekStartOf env.today)) = true →
      (replyHandler env event).statusCode = 200 ∧
      (replyHandler env event).alreadyConfirmed = some true ∧
      (replyHandler env event).confirmed = none ∧
      (replyHandler env event).storageWrites = 0 ∧
      (replyHandler env event).records = env.records ∧
      (replyHandler env event).optIns = env.optIns) ∧
    (hasLunchBeenConfirmedForWeek env.records
        (orElseStr (loc.getD "") env.defaultLocation)
        (dateOpt.getD (weekStartOf env.today)) = false →
      (replyHandler env event).statusCode = 200 ∧
      (replyHandler env event).confirmed = some true ∧
      (replyHandler env event).alreadyConfirmed = none ∧
      (replyHandler env event).storageWrites = 1 ∧
      (replyHandler env event).records =
        recordLunchConfirmation env.records
          (orElseStr (loc.getD "") env.defaultLocation)
          (dateOpt.getD (weekStartOf env.today)) env.nowMs ∧
      hasLunchBeenConfirmedForWeek (replyHandler env event).records
        (orElseStr (loc.getD "") env.defaultLocation)
        (dateOpt.getD (weekStartOf env.today)) = true) := by
  have hrec : ∀ (s : Store) (l : String) (ws : Nat),
      hasLunchBeenConfirmedForWeek (recordLunchConfirmation s l ws env.nowMs) l ws = true := by
    intro s l ws
    unfold hasLunchBeenConfirmedForWeek recordLunchConfirmation putItem
    simp
  constructor
  · intro h
    unfold replyHandler
    cases dateOpt <;> rcases hm with hm | hm <;>
      simp_all [hua, hm, hd, hp]
  · intro h
    unfold replyHandler
    cases dateOpt <;> rcases hm with hm | hm <;>
      simp_all [hua, hm, hd, hp, hrec]

/-- C8 witness data. -/
def renvC8 : ReplyEnv :=
  { records := [], optIns := [], defaultLocation := "Munich", today := 10, nowMs := 0 }

/-- C8 witness data: a GET confirm-lunch request for Berlin. -/
def eventC8 : ReplyEvent :=
  { httpMethod := "GET"
    queryStringParameters := some { action := some "confirm-lunch", location := some "Berlin" } }

/-- C8 witness data: state already holding the Berlin confirmation for
week-start 7. -/
def renvC8b : ReplyEnv :=
  { renvC8 with records := [{ id := lunchConfirmationId "Berlin" 7, date := 7, timestamp := 0,
                              messageType := "lunch_confirmation", location := "Berlin" }] }

/-- C8 witness. -/
theorem confirmLunch_read_then_write_once_witness :
    ((replyHandler renvC8 eventC8).confirmed = some true ∧
      (replyHandler renvC8 eventC8).storageWrites = 1) ∧
    ((replyHandler renvC8b eventC8).alreadyConfirmed = some true ∧
      (replyHandler renvC8b eventC8).records = renvC8b.records) := by
  have h1 := confirmLunch_read_then_write_once renvC8 eventC8
    { action := some "confirm-lunch", location := some "Berlin" }
    (some "Berlin") none (by decide) (Or.inr rfl) (by decide) (by decide)
  have h2 := confirmLunch_read_then_write_once renvC8b eventC8
    { action := some "confirm-lunch", location := some "Berlin" }
    (some "Berlin") none (by decide) (Or.inr rfl) (by decide) (by decide)
  exact ⟨⟨(h1.2 (by decide)).2.1, (h1.2 (by decide)).2.2.2.1⟩,
    ⟨(h2.1 (by decide)).2.1, (h2.1 (by decide)).2.2.2.2.1⟩⟩

/-- C9 counterexample data. -/
def renvC9 : ReplyEnv :=
  { records := [], optIns := [], defaultLocation := "Munich", today := 10, nowMs := 0 }

/-- C9 counterexample data: a POST with an unparseable body sent by the Slack
link-expanding bot. -/
def eventC9bot : ReplyEvent :=
  { httpMethod := "POST"
    body := ReplyBody.invalid
    userAgentCap := some "Mozilla/5.0 Slackbot-LinkExpanding 1.0" }

/-- C9 counterexample data: a PUT request carrying a disallowed action in its
query parameters. -/
def eventC9put : ReplyEvent :=
  { httpMethod := "PUT"
    queryStringParameters := some { action := some "delete-everything" } }

/-- C9 counterexample: a POST whose body is not valid JSON but whose user
agent contains Slackbot-LinkExpanding is answered 200 (bot gate), not 400;
and a request with a present, disallowed action arriving with a PUT method is
answered 405, not 400. -/
theorem invalid_request_400_cex :
    (eventC9bot.httpMethod = "POST" ∧ eventC9bot.body = ReplyBody.invalid ∧
      (replyHandler renvC9 eventC9bot).statusCode = 200) ∧
    (eventC9put.queryStringParameters = some { action := some "delete-everything" } ∧
      allowedActions.contains "delete-everything" = false ∧
      (replyHandler renvC9 eventC9put).statusCode = 405) := by
  refine ⟨⟨rfl, rfl, ?_⟩, rfl, ?_, ?_⟩ <;> decide

/-- C9 (amended): for reply requests that are not caught by the bot gate and
whose method is POST or GET, an unparseable POST body or a present but
disallowed action yields a 400 response with no Ledger read or write and an
unchanged state. -/
theorem invalid_request_rejected_before_state (env : ReplyEnv) (event : ReplyEvent)
    (hua : strIncludes (effectiveUserAgent event) "Slackbot-LinkExpanding" = false)
    (hm : event.httpMethod = "POST" ∨ event.httpMethod = "GET") :
    (event.body = ReplyBody.invalid → event.httpMethod = "POST" →
      (replyHandler env event).statusCode = 400 ∧
      (replyHandler env event).storageReads = 0 ∧
      (replyHandler env event).storageWrites = 0 ∧
      (replyHandler env event).records = env.records ∧
      (replyHandler env event).optIns = env.optIns) ∧
    (∀ d a, requestDataOf event = RequestDataOutcome.ok d → d.action = some a →
      allowedActions.contains a = false →
      (replyHandler env event).statusCode = 400 ∧
      (replyHandler env event).storageReads = 0 ∧
      (replyHandler env event).storageWrites = 0 ∧
      (replyHandler env event).records = env.records ∧
      (replyHandler env event).optIns = env.optIns) := by
  constructor
  · intro hb hpost
    unfold replyHandler requestDataOf
    simp [hua, hpost, hb]
  · intro d a hd ha hallow
    have hp : replyRequestSafeParse d = ParseOutcome.failure := by
      unfold replyRequestSafeParse
      rw [ha]
      simp at hallow
      simp [hallow]
    unfold replyHandler
    rcases hm with hm | hm <;> simp [hua, hm, hd, hp]

/-- C9 witness data: a POST with an unparseable body and a normal user
agent. -/
def eventC9w1 : ReplyEvent := { httpMethod := "POST", body := ReplyBody.invalid }

/-- C9 witness data: a GET with a disallowed action. -/
def eventC9w2 : ReplyEvent :=
  { httpMethod := "GET"
    queryStringParameters := some { action := some "bogus-action" } }

/-- C9 witness. -/
theorem invalid_request_rejected_witness :
    ((replyHandler renvC9 eventC9w1).statusCode = 400 ∧
      (replyHandler renvC9 eventC9w1).records = renvC9.records) ∧
    ((replyHandler renvC9 eventC9w2).statusCode = 400 ∧
      (replyHandler renvC9 eventC9w2).storageReads = 0) := by
  have h1 := invalid_request_rejected_before_state renvC9 eventC9w1 (by decide) (Or.inl rfl)
  have h2 := invalid_request_rejected_before_state renvC9 eventC9w2 (by decide) (Or.inr rfl)
  exact ⟨⟨(h1.1 rfl rfl).1, (h1.1 rfl rfl).2.2.2.1⟩,
    ⟨(h2.2 { action := some "bogus-action" } "bogus-action" (by decide) rfl (by decide)).1,
      (h2.2 { action := some "bogus-action" } "bogus-action" (by decide) rfl (by decide)).2.1⟩⟩

/-- C10: any reply request whose effective User-Agent contains the substring
Slackbot-LinkExpanding is answered 200 with the bot-blocked message before
method, body or action are examined: no Ledger read or write happens and the
state is unchanged. -/
theorem bot_requests_blocked_before_state (env : ReplyEnv) (event : ReplyEvent)
    (h : strIncludes (effectiveUserAgent event) "Slackbot-LinkExpanding" = true) :
    (replyHandler env event).statusCode = 200 ∧
    (replyHandler env event).message = "Bot request blocked" ∧
    (replyHandler env event).storageReads = 0 ∧
    (replyHandler env event).storageWrites = 0 ∧
    (replyHandler env event).records = env.records ∧
    (replyHandler env event).optIns = env.optIns := by
  unfold replyHandler
  simp [h]

/-- C10 witness data: the confirmation URL opened by the Slack link-expanding
bot as a POST confirm-lunch request. -/
def renvC10 : ReplyEnv :=
  { records := [], optIns := [], defaultLocation := "Munich", today := 10, nowMs := 0 }

/-- C10 witness data. -/
def eventC10 : ReplyEvent :=
  { httpMethod := "POST"
    body := ReplyBody.parsed { action := some "confirm-lunch", location := some "Berlin" }
    userAgentLower := some "Slackbot-LinkExpanding (bot)" }

/-- C10 witness. -/
theorem bot_requests_blocked_witness :
    (replyHandler renvC10 eventC10).statusCode = 200 ∧
    (replyHandler renvC10 eventC10).message = "Bot request blocked" ∧
    (replyHandler renvC10 eventC10).records = renvC10.records := by
  have h := bot_requests_blocked_before_state renvC10 eventC10 (by decide)
  exact ⟨h.1, h.2.1, h.2.2.2.2.1⟩

end LunchBot
